import Mathlib

/-!
Verification of the collaborative exercise-session synchronization engine of
the `tc2` server (the implementation wired into `app/main.py`:
`app/services/exercise_session_service.py`,
`app/routers/exercise_session_ws.py`, `app/repos/exercise_session.py`).

The Python code is shallowly embedded: each handler and service method is
translated into a pure Lean function from its inputs (the in-process
connection registry, a snapshot of the Mongo/Redis repositories, and the
inbound operation) to the ordered list of observable effects it performs
(Redis writes, websocket sends, pub/sub publishes, registry mutations).
Asynchronous interleaving is not modelled: each dispatched operation is
analysed as one atomic run against a fixed repository snapshot, which matches
the single-threaded event-loop execution of one handler between awaits.
Wall-clock timestamps, generated UUIDs and socket objects carry no
information used by any verified property; timestamps are omitted and fresh
UUIDs are modelled by a fixed placeholder token.
-/

namespace TC2

/-! ## Data model (`app/schema/exercise_session.py`) -/

/-- Source `ExerciseSessionStatus`. -/
inductive SessionStatus
  | draft
  | active
deriving DecidableEq, Repr

/-- Source `ExerciseSessionStateItemType`. -/
inductive ItemType
  | single
  | compound
deriving DecidableEq, Repr

/-- Source `ExerciseType`. -/
inductive ExerciseType
  | weight_reps
  | weight_time
  | distance_time
  | reps
  | time
  | distance
deriving DecidableEq, Repr

/-- Source `ExerciseSetType`. -/
inductive SetType
  | warmup
  | working
  | drop
  | super
  | failure
deriving DecidableEq, Repr

/-- Source `ExerciseSessionItemMeta`. -/
structure ItemMeta where
  internal_id : String
  name : String
  type : ExerciseType
deriving DecidableEq, Repr

/-- Source `ExerciseSessionStateItemMetric`.  Numeric metric values are modelled as
integers; the source stores floats for weight/distance but no verified
operation computes with them. -/
structure Metric where
  reps : Option Int := none
  weight : Option Int := none
  duration : Option Int := none
  distance : Option Int := none
deriving DecidableEq, Repr

/-- Source `ExerciseSessionStateItemSet`. -/
structure SetEntry where
  id : String
  order : Int := 1
  metrics : Metric := {}
  type : SetType := .working
  complete : Bool := false
deriving DecidableEq, Repr

/-- Source `ExerciseSessionStateItem`. -/
structure Item where
  id : String
  order : Int := 1
  participants : List String := []
  type : ItemType := .single
  rest : Option Int := none
  meta : List ItemMeta := []
  sets : List SetEntry := []
deriving DecidableEq, Repr

/-- Source `ExerciseSessionState`: the versioned per-(session, account) participant
state. -/
structure SessionState where
  session_id : String
  account_id : String
  version : Int := 0
  items : List Item := []
deriving DecidableEq, Repr

/-- Source `ExerciseSessionParticipantCursor`. -/
structure Cursor where
  exercise_id : String
  exercise_set_id : String
deriving DecidableEq, Repr

/-- Source `ExerciseSessionParticipant`. -/
structure Participant where
  id : String
  color : String := "#FFFFFF"
  cursor : Option Cursor := none
deriving DecidableEq, Repr

/-- Source `ExerciseSessionInDB` (the durable session document).  Fields never read
by the verified operations (`name`, `invitations`, timestamps) are omitted. -/
structure Session where
  id : String
  status : SessionStatus
  owner_id : String
  participants : List Participant := []
deriving DecidableEq, Repr

/-! ## Operation model (`exercise_session_service.py`) -/

/-- Source `ExerciseSessionOperationType`. -/
inductive OperationType
  | session_join
  | session_leave
  | session_update
  | session_sync
  | exercise_add
  | exercise_update
  | exercise_delete
  | exercise_reorder
  | set_add
  | set_update
  | set_delete
  | set_complete
  | set_reorder
  | cursor_move
  | participant_join
  | participant_leave
  | participant_update
  | heartbeat
  | sync_request
  | sync_response
deriving DecidableEq, Repr

/-- One typed update entry of the `updates` dict consumed by
`handle_exercise_update`: `setattr(item, k, v)` for each key `k` that is an
attribute of the item; a key that is not an attribute is skipped
(`hasattr` check). -/
inductive FieldUpdate
  | id (v : String)
  | order (v : Int)
  | participants (v : List String)
  | type (v : ItemType)
  | rest (v : Option Int)
  | meta (v : List ItemMeta)
  | sets (v : List SetEntry)
  | unknown (key : String)
deriving DecidableEq, Repr

/-- The `cursor` dict of a `cursor_move` payload. -/
structure CursorPayload where
  exercise_id : Option String := none
  set_id : Option String := none
deriving DecidableEq, Repr

/-- A raw `meta` entry of an `exercise_add` payload, not yet validated by
pydantic (`ExerciseSessionItemMeta(**m)`). -/
structure RawMeta where
  internal_id : Option String := none
  name : Option String := none
  type : Option ExerciseType := none
deriving DecidableEq, Repr

/-- The `exercise` dict of an `exercise_add` payload. -/
structure ExercisePayload where
  type : Option ItemType := none
  rest : Option Int := none
  meta : List RawMeta := []
deriving DecidableEq, Repr

/-- The `set` dict of a `set_add` payload. -/
structure SetPayload where
  metrics : Metric := {}
  type : Option SetType := none
deriving DecidableEq, Repr

/-- The inbound operation payload dict: the keys the registered handlers read
via `payload.get(...)`; an absent key is `none`. -/
structure Payload where
  session_id : Option String := none
  exercise_id : Option String := none
  set_id : Option String := none
  exercise : Option ExercisePayload := none
  set : Option SetPayload := none
  updates : List FieldUpdate := []
  cursor : Option CursorPayload := none
deriving DecidableEq, Repr

/-- The payload dict carried by an operation after the handlers ran: either
the untouched inbound dict, one of the replacement dicts the mutating
handlers install, a reply payload, or an error payload. -/
inductive OutPayload
  | inbound (p : Payload)
  | exerciseAdded (item : Item) (version : Int)
  | setAdded (exercise_id : String) (s : SetEntry) (version : Int)
  | versioned (p : Payload) (version : Int)
  | syncState (state : SessionState)
  | syncAll (session : Session) (state : SessionState)
      (participant_states : List SessionState) (version : Int)
  | accountRef (account_id : String)
  | errorMsg (error : String) (error_type : Option String)
deriving DecidableEq, Repr

/-- Source `ExerciseSessionOperation`.  The wall-clock `timestamp` field is omitted:
it is stamped server-side and never inspected by any verified operation. -/
structure Op where
  id : String
  type : OperationType
  session_id : String
  account_id : String
  payload : OutPayload
  version : Int := 0
  correlation_id : Option String := none
  instance_id : Option String := none
deriving DecidableEq, Repr

/-- The inbound payload dict of an operation (the dispatcher only ever
constructs operations with `.inbound` payloads before routing them). -/
def Op.inPayload (op : Op) : Payload :=
  match op.payload with
  | .inbound p => p
  | _ => {}

/-- Python truthiness of an optional string (`if not s:` is taken for both a
missing key and an empty string). -/
def truthy : Option String → Bool
  | none => false
  | some s => s ≠ ""

/-- Source `uuid4()` modelled by a fixed placeholder: no verified property
distinguishes generated ids. -/
def freshId : String := "00000000-0000-0000-0000-000000000000"

/-! ## Connection registry (in-process maps of
`ExerciseSessionMessageService`) -/

/-- Source `ESMSConnectionInfo` (the `websocket` object and the timestamps are
omitted: they carry no information used by a verified property). -/
structure ConnInfo where
  account_id : String
  session_id : Option String := none
  instance_id : String
deriving DecidableEq, Repr

/-- Association-list lookup, modelling a Python dict `get`. -/
def alookup {α : Type} : List (String × α) → String → Option α
  | [], _ => none
  | (k, v) :: rest, key => if k = key then some v else alookup rest key

/-- The in-process maps of `ExerciseSessionMessageService`:
`connections`, `session_connections` and `account_connections`. -/
structure Registry where
  connections : List (String × ConnInfo) := []
  session_connections : List (String × List String) := []
  account_connections : List (String × List String) := []
deriving Repr

/-- The invariant the registry maintains: every connection id indexed under a
session is registered in `connections` with that session bound, and each
index entry (a Python `set`) holds no duplicates. -/
def Registry.wfOk (reg : Registry) : Bool :=
  reg.session_connections.all fun e =>
    decide e.2.Nodup && e.2.all fun c =>
      match alookup reg.connections c with
      | some info => info.session_id == some e.1
      | none => false

/-! ## Repository snapshot (`app/repos/exercise_session.py`) -/

/-- Source `build_state_key`. -/
def build_state_key (session_id account_id : String) : String :=
  "exercise_session_state:" ++ session_id ++ ":" ++ account_id

/-- A snapshot of the durable store and the fast cache as seen through the
repository's read methods: `get_session_by_id` (Mongo lookup by `_id`),
`get_active_session_by_user` (Mongo query for an ACTIVE session owned by or
listing the account), the Redis cache keyed by `build_state_key` (a stored
value that fails JSON/pydantic parsing is `none`), and
`get_session_state_by_session`. -/
structure Repo where
  sessionById : String → Option Session
  activeSessionByUser : String → Option Session
  cacheGet : String → Option SessionState
  statesBySession : String → List SessionState

/-- Source `ExerciseSessionRepository.get_active_session_state_by_user`: resolve the
account's active session, read the cached state under its key, and drop a
state recorded for a different session. -/
def get_active_session_state_by_user (repo : Repo) (account_id : String) :
    Option SessionState :=
  match repo.activeSessionByUser account_id with
  | none => none
  | some session =>
    match repo.cacheGet (build_state_key session.id account_id) with
    | none => none
    | some st => if st.session_id = session.id then some st else none

/-! ## Observable effects -/

/-- One observable side effect of a dispatched operation, in program order.
`cacheSet` is a Redis `SET ... EX ttl`; `deliver` is an actual
`websocket.send_text` to a registered connection; `sendOp` is a
`send_to_connection` call issued by a handler or the dispatcher;
`broadcast` is a `broadcast_to_session` call; `logHandlerError` stands for
the `logger.exception` + `stats["errors"] += 1` pair of `_route_op`'s
exception arm; `mongoSetParticipants` is the `update_by_id` write of
`handle_cursor_move`; `bind`/`unbind` are the `info.session_id` /
`session_connections` index mutations of `join_session`/`leave_session`;
`subscribeCh`/`unsubscribeCh` manage the pub/sub channel subscriptions and
`registrySet` refreshes the Redis connection-mirror entry. -/
inductive Event
  | cacheSet (key : String) (ttl : Nat) (state : SessionState)
  | deliver (conn : String) (op : Op)
  | sendOp (conn : String) (op : Op)
  | publish (channel : String) (op : Op)
  | broadcast (session_id : String) (op : Op) (exclude : Option String)
  | logHandlerError (msg : String)
  | mongoSetParticipants (session_id : String) (participants : List Participant)
  | bind (conn : String) (session_id : String)
  | unbind (conn : String)
  | subscribeCh (channel : String)
  | unsubscribeCh (channel : String)
  | registrySet (conn : String)
deriving DecidableEq, Repr

/-- Whether an event is a `broadcast_to_session` call. -/
def Event.isBroadcast : Event → Bool
  | .broadcast _ _ _ => true
  | _ => false

/-- Whether an event is a `send_to_connection` call issued by the
dispatcher or a handler. -/
def Event.isSendOp : Event → Bool
  | .sendOp _ _ => true
  | _ => false

/-- Occurrence count of an event in a trace. -/
def countEvent (e : Event) (l : List Event) : Nat :=
  (l.filter fun x => x = e).length

/-! ## Repository writes -/

/-- Source `ExerciseSessionRepository.create_session_state`: requires the session
document to exist (any status); an existing active-session state for the
account is returned as-is if it is for the requested session and blocks the
call (`None`) otherwise; else a fresh version-0 empty state is written to the
cache with a 3600s TTL. -/
def create_session_state (repo : Repo) (session_id account_id : String) :
    Option SessionState × List Event :=
  match repo.sessionById session_id with
  | none => (none, [])
  | some _ =>
    match get_active_session_state_by_user repo account_id with
    | some st =>
      if st.session_id ≠ session_id then (none, [])
      else (some st, [])
    | none =>
      let st : SessionState :=
        { session_id := session_id, account_id := account_id, version := 0, items := [] }
      (some st, [Event.cacheSet (build_state_key session_id account_id) 3600 st])

/-- Source `ExerciseSessionRepository.update_session_state`: re-reads the session
document and silently writes nothing when it is gone; otherwise writes the
state to the cache with a 3600s TTL. -/
def update_session_state (repo : Repo) (st : SessionState) : List Event :=
  match repo.sessionById st.session_id with
  | none => []
  | some _ => [Event.cacheSet (build_state_key st.session_id st.account_id) 3600 st]

/-! ## Broadcast bus (`ExerciseSessionMessageService`) -/

def esms_prefix : String := "esms"

def sessionChannel (session_id : String) : String :=
  esms_prefix ++ ":session:" ++ session_id

/-- Source `broadcast_to_session` stamps the operation's `instance_id` with this
instance's id if unset. -/
def stampInstance (inst : String) (op : Op) : Op :=
  match op.instance_id with
  | none => { op with instance_id := some inst }
  | some _ => op

/-- Source `send_to_connection`: a no-op for a connection id absent from the local
`connections` map, otherwise a websocket send.  (A failing send triggers
`disconnect` of that one connection; the failure path changes no state read
by a verified property and is not modelled.) -/
def send_to_connection (reg : Registry) (conn : String) (op : Op) : List Event :=
  match alookup reg.connections conn with
  | none => []
  | some _ => [Event.deliver conn op]

/-- Source `broadcast_to_session`: stamp `instance_id`, publish the serialized
operation on the session's shared channel, then fan out to this instance's
local connections indexed under the session, skipping `exclude_connection`. -/
def broadcast_to_session (reg : Registry) (inst session_id : String) (op : Op)
    (exclude_connection : Option String) : List Event :=
  let op' := stampInstance inst op
  Event.publish (sessionChannel session_id) op' ::
    (((alookup reg.session_connections session_id).getD []).filter
        (fun c => decide (some c ≠ exclude_connection))).flatMap
      (fun c => send_to_connection reg c op')

/-- Source `_handle_pubsub_op`: drop an operation originated by this instance,
otherwise fan out to the local connections indexed under the operation's
`session_id`.  (The JSON decode of the wire payload is outside the model:
the input is the already-parsed operation; a parse failure is logged and
delivers nothing.) -/
def handle_pubsub_op (reg : Registry) (inst : String) (op : Op) : List Event :=
  if op.instance_id = some inst then []
  else
    ((alookup reg.session_connections op.session_id).getD []).flatMap
      (fun c => send_to_connection reg c op)

/-- Source `join_session` (service): look up the connection, leave a different
previously-bound session first, bind, subscribe to the session channel if
this is the instance's first connection for it, refresh the registry mirror
and broadcast a `participant_join` relay excluding the joiner. -/
def participantJoinOp (inst session_id account_id : String) : Op :=
  { id := freshId, type := .participant_join, session_id := session_id,
    account_id := account_id, payload := .accountRef account_id,
    version := 0, correlation_id := none, instance_id := some inst }

def participantLeaveOp (inst session_id account_id : String) : Op :=
  { id := freshId, type := .participant_leave, session_id := session_id,
    account_id := account_id, payload := .accountRef account_id,
    version := 0, correlation_id := none, instance_id := some inst }

/-- Source `leave_session` (service): unbind, unsubscribe when the session's local
index becomes empty, refresh the mirror, broadcast `participant_leave`
(without excluding any connection: the leaver is no longer indexed). -/
def leave_session_svc (reg : Registry) (inst conn : String) : List Event :=
  match alookup reg.connections conn with
  | none => []
  | some info =>
    match info.session_id with
    | none => []
    | some sid =>
      let unsub :=
        match alookup reg.session_connections sid with
        | none => []
        | some l =>
          if l.erase conn = [] then [Event.unsubscribeCh (sessionChannel sid)] else []
      Event.unbind conn :: unsub ++
        [Event.registrySet conn,
         Event.broadcast sid (participantLeaveOp inst sid info.account_id) none]

def join_session_svc (reg : Registry) (inst conn session_id : String) : List Event :=
  match alookup reg.connections conn with
  | none => []
  | some info =>
    let pre :=
      match info.session_id with
      | some old => if old ≠ session_id then leave_session_svc reg inst conn else []
      | none => []
    let created := (alookup reg.session_connections session_id).isNone
    pre ++ Event.bind conn session_id ::
      ((if created then [Event.subscribeCh (sessionChannel session_id)] else []) ++
       [Event.registrySet conn,
        Event.broadcast session_id (participantJoinOp inst session_id info.account_id)
          (some conn)])

/-! ## Handler replies (`_make_op`, `_send_error`) -/

/-- Source `_send_error`: a `session_update` operation with an error payload,
sent to the originating connection, correlated with the failing operation. -/
def sendError (conn account_id msg : String) (correlation : Option String) : Event :=
  Event.sendOp conn
    { id := freshId, type := .session_update, session_id := "",
      account_id := account_id, payload := .errorMsg msg (some "client_error"),
      version := 0, correlation_id := correlation, instance_id := none }

/-- The `session_sync` push of `handle_session_join`. -/
def sessionSyncOp (session_id account_id : String) (st : SessionState)
    (correlation : Option String) : Op :=
  { id := freshId, type := .session_sync, session_id := session_id,
    account_id := account_id, payload := .syncState st, version := st.version,
    correlation_id := correlation, instance_id := none }

/-- The `sync_response` reply of `handle_sync_request`. -/
def syncResponseOp (session_id account_id : String) (session : Session)
    (st : SessionState) (states : List SessionState)
    (correlation : Option String) : Op :=
  { id := freshId, type := .sync_response, session_id := session_id,
    account_id := account_id, payload := .syncAll session st states st.version,
    version := st.version, correlation_id := correlation, instance_id := none }

/-! ## Handlers (`app/routers/exercise_session_ws.py`) -/

/-- The result of a handler that returned normally: its effect trace and the
(possibly mutated in place) operation. -/
structure HandlerOut where
  events : List Event := []
  op : Op
deriving DecidableEq, Repr

/-- A registered handler: total up to a raised Python exception, modelled as
`Except.error` with the exception text. -/
def HandlerFn : Type :=
  Registry → Repo → String → Op → String → Except String HandlerOut

/-- Source `ExerciseSessionItemMeta(**m)`: pydantic raises a `ValidationError` when
a required field is missing. -/
def ItemMeta.parse : RawMeta → Except String ItemMeta
  | ⟨some i, some n, some t⟩ => .ok ⟨i, n, t⟩
  | _ => .error "validation error for ExerciseSessionItemMeta"

def parseMetaList : List RawMeta → Except String (List ItemMeta)
  | [] => .ok []
  | m :: rest =>
    match ItemMeta.parse m with
    | .error e => .error e
    | .ok v =>
      match parseMetaList rest with
      | .error e => .error e
      | .ok vs => .ok (v :: vs)

/-- Source `handle_session_join`. -/
def handle_session_join : HandlerFn := fun reg repo inst op conn =>
  let p := op.inPayload
  if ¬ truthy p.session_id then
    .ok { events := [sendError conn op.account_id "session_id required" (some op.id)],
          op := op }
  else
    let sid := p.session_id.getD ""
    match repo.sessionById sid with
    | none =>
      .ok { events := [sendError conn op.account_id "Session not found" (some op.id)],
            op := op }
    | some session =>
      if session.owner_id ≠ op.account_id ∧
          ¬ session.participants.any (fun q => q.id = op.account_id) then
        .ok { events := [sendError conn op.account_id "Access denied" (some op.id)],
              op := op }
      else
        let joinEvs := join_session_svc reg inst conn sid
        let stateRes :=
          match get_active_session_state_by_user repo op.account_id with
          | some st => (some st, ([] : List Event))
          | none => create_session_state repo sid op.account_id
        let syncEvs :=
          match stateRes.1 with
          | some st =>
            [Event.sendOp conn (sessionSyncOp sid op.account_id st (some op.id))]
          | none => []
        .ok { events := joinEvs ++ stateRes.2 ++ syncEvs, op := op }

/-- Source `handle_session_leave`. -/
def handle_session_leave : HandlerFn := fun reg _repo inst op conn =>
  .ok { events := leave_session_svc reg inst conn, op := op }

/-- Source `handle_exercise_add`. -/
def handle_exercise_add : HandlerFn := fun _reg repo _inst op conn =>
  if op.session_id = "" then
    .ok { events := [sendError conn op.account_id "Not in a session" (some op.id)],
          op := op }
  else
    match get_active_session_state_by_user repo op.account_id with
    | none =>
      .ok { events := [sendError conn op.account_id "No active state" (some op.id)],
            op := op }
    | some state =>
      let ex := op.inPayload.exercise.getD {}
      match parseMetaList ex.meta with
      | .error e => .error e
      | .ok metas =>
        let new_item : Item :=
          { id := freshId, order := state.items.length + 1,
            participants := [op.account_id], type := ex.type.getD .single,
            rest := some (ex.rest.getD 90), meta := metas, sets := [] }
        let state' :=
          { state with items := state.items ++ [new_item],
                       version := state.version + 1 }
        .ok { events := update_session_state repo state',
              op := { op with payload := .exerciseAdded new_item state'.version,
                              version := state'.version } }

/-- The first item with the given id, updated by `f`; `none` when no item
matches (the Python `for ... break / else` scan). -/
def updateFirst (eid : String) (f : Item → Item) : List Item → Option (List Item)
  | [] => none
  | it :: rest =>
    if it.id = eid then some (f it :: rest)
    else (updateFirst eid f rest).map (it :: ·)

/-- One `setattr(item, k, v)` application. -/
def applyFieldUpdate (it : Item) : FieldUpdate → Item
  | .id v => { it with id := v }
  | .order v => { it with order := v }
  | .participants v => { it with participants := v }
  | .type v => { it with type := v }
  | .rest v => { it with rest := v }
  | .meta v => { it with meta := v }
  | .sets v => { it with sets := v }
  | .unknown _ => it

def applyUpdates (us : List FieldUpdate) (it : Item) : Item :=
  us.foldl applyFieldUpdate it

/-- Source `handle_exercise_update`. -/
def handle_exercise_update : HandlerFn := fun _reg repo _inst op conn =>
  if op.session_id = "" then
    .ok { events := [sendError conn op.account_id "Not in a session" (some op.id)],
          op := op }
  else
    let p := op.inPayload
    if ¬ truthy p.exercise_id then
      .ok { events := [sendError conn op.account_id "exercise_id required" (some op.id)],
            op := op }
    else
      match get_active_session_state_by_user repo op.account_id with
      | none =>
        .ok { events := [sendError conn op.account_id "No active state" (some op.id)],
              op := op }
      | some state =>
        let eid := p.exercise_id.getD ""
        match updateFirst eid (applyUpdates p.updates) state.items with
        | none =>
          .ok { events := [sendError conn op.account_id "Exercise not found" (some op.id)],
                op := op }
        | some items' =>
          let state' := { state with items := items', version := state.version + 1 }
          .ok { events := update_session_state repo state',
                op := { op with version := state'.version,
                                payload := .versioned p state'.version } }

/-- Renumber `order` to `i, i+1, ...` (the `enumerate(items, 1)` loop of
`handle_exercise_delete`). -/
def renumberFrom (i : Int) : List Item → List Item
  | [] => []
  | it :: rest => { it with order := i } :: renumberFrom (i + 1) rest

/-- Source `handle_exercise_delete`. -/
def handle_exercise_delete : HandlerFn := fun _reg repo _inst op conn =>
  if op.session_id = "" then
    .ok { events := [sendError conn op.account_id "Not in a session" (some op.id)],
          op := op }
  else
    let p := op.inPayload
    if ¬ truthy p.exercise_id then
      .ok { events := [sendError conn op.account_id "exercise_id required" (some op.id)],
            op := op }
    else
      match get_active_session_state_by_user repo op.account_id with
      | none =>
        .ok { events := [sendError conn op.account_id "No active state" (some op.id)],
              op := op }
      | some state =>
        let eid := p.exercise_id.getD ""
        let items' := state.items.filter (fun it => decide (it.id ≠ eid))
        if items'.length = state.items.length then
          .ok { events := [sendError conn op.account_id "Exercise not found" (some op.id)],
                op := op }
        else
          let state' := { state with items := renumberFrom 1 items',
                                     version := state.version + 1 }
          .ok { events := update_session_state repo state',
                op := { op with version := state'.version,
                                payload := .versioned p state'.version } }

/-- Append a new set (built from the found item) to the first item with the
given id. -/
def addSetFirst (eid : String) (mk : Item → SetEntry) :
    List Item → Option (SetEntry × List Item)
  | [] => none
  | it :: rest =>
    if it.id = eid then
      let ns := mk it
      some (ns, { it with sets := it.sets ++ [ns] } :: rest)
    else (addSetFirst eid mk rest).map (fun r => (r.1, it :: r.2))

/-- Source `handle_set_add`. -/
def handle_set_add : HandlerFn := fun _reg repo _inst op conn =>
  if op.session_id = "" then
    .ok { events := [sendError conn op.account_id "Not in a session" (some op.id)],
          op := op }
  else
    let p := op.inPayload
    let sp := p.set.getD {}
    if ¬ truthy p.exercise_id then
      .ok { events := [sendError conn op.account_id "exercise_id required" (some op.id)],
            op := op }
    else
      match get_active_session_state_by_user repo op.account_id with
      | none =>
        .ok { events := [sendError conn op.account_id "No active state" (some op.id)],
              op := op }
      | some state =>
        let eid := p.exercise_id.getD ""
        let mk : Item → SetEntry := fun item =>
          { id := freshId, order := item.sets.length + 1, metrics := sp.metrics,
            type := sp.type.getD .working, complete := false }
        match addSetFirst eid mk state.items with
        | none =>
          .ok { events := [sendError conn op.account_id "Exercise not found" (some op.id)],
                op := op }
        | some r =>
          let state' := { state with items := r.2, version := state.version + 1 }
          .ok { events := update_session_state repo state',
                op := { op with payload := .setAdded eid r.1 state'.version,
                                version := state'.version } }

/-- Mark the first set with the given id complete; `none` when absent. -/
def completeInSets (sid : String) : List SetEntry → Option (List SetEntry)
  | [] => none
  | s :: rest =>
    if s.id = sid then some ({ s with complete := true } :: rest)
    else (completeInSets sid rest).map (s :: ·)

/-- The nested `for`-`else` scan of `handle_set_complete`: the first item
with the exercise id whose sets contain the set id is updated; an item with
the right id but without the set is skipped (`continue`). -/
def completeSetScan (eid sid : String) : List Item → Option (List Item)
  | [] => none
  | it :: rest =>
    if it.id = eid then
      match completeInSets sid it.sets with
      | some sets' => some ({ it with sets := sets' } :: rest)
      | none => (completeSetScan eid sid rest).map (it :: ·)
    else (completeSetScan eid sid rest).map (it :: ·)

/-- Source `handle_set_complete`. -/
def handle_set_complete : HandlerFn := fun _reg repo _inst op conn =>
  if op.session_id = "" then
    .ok { events := [sendError conn op.account_id "Not in a session" (some op.id)],
          op := op }
  else
    let p := op.inPayload
    if ¬ truthy p.exercise_id ∨ ¬ truthy p.set_id then
      .ok { events := [sendError conn op.account_id "exercise_id and set_id required" (some op.id)],
            op := op }
    else
      match get_active_session_state_by_user repo op.account_id with
      | none =>
        .ok { events := [sendError conn op.account_id "No active state" (some op.id)],
              op := op }
      | some state =>
        match completeSetScan (p.exercise_id.getD "") (p.set_id.getD "") state.items with
        | none =>
          .ok { events := [sendError conn op.account_id "Set not found" (some op.id)],
                op := op }
        | some items' =>
          let state' := { state with items := items', version := state.version + 1 }
          .ok { events := update_session_state repo state',
                op := { op with version := state'.version,
                                payload := .versioned p state'.version } }

/-- Set the cursor of the first participant with the given account id. -/
def setCursorFirst (aid : String) (cur : Cursor) :
    List Participant → Option (List Participant)
  | [] => none
  | q :: rest =>
    if q.id = aid then some ({ q with cursor := some cur } :: rest)
    else (setCursorFirst aid cur rest).map (q :: ·)

/-- Source `handle_cursor_move`: silent no-op without a session or when the session
or the participant is missing; constructing the pydantic cursor raises when
the payload lacks `exercise_id`/`set_id`; on success the session document's
participants are rewritten. -/
def handle_cursor_move : HandlerFn := fun _reg repo _inst op _conn =>
  if op.session_id = "" then .ok { events := [], op := op }
  else
    let c := op.inPayload.cursor.getD {}
    match repo.sessionById op.session_id with
    | none => .ok { events := [], op := op }
    | some session =>
      if session.participants.any (fun q => q.id = op.account_id) then
        match c.exercise_id, c.set_id with
        | some e, some s =>
          let parts' :=
            (setCursorFirst op.account_id ⟨e, s⟩ session.participants).getD
              session.participants
          .ok { events := [Event.mongoSetParticipants op.session_id parts'], op := op }
        | _, _ => .error "validation error for ExerciseSessionParticipantCursor"
      else .ok { events := [], op := op }

/-- Source `handle_sync_request`: replies with the session document, the requester's
state and all participants' states; never broadcast (`sync_request` is a
no-broadcast kind). -/
def handle_sync_request : HandlerFn := fun _reg repo _inst op conn =>
  if op.session_id = "" then
    .ok { events := [sendError conn op.account_id "Not in a session" (some op.id)],
          op := op }
  else
    match repo.sessionById op.session_id,
          get_active_session_state_by_user repo op.account_id with
    | some session, some st =>
      .ok { events := [Event.sendOp conn
              (syncResponseOp op.session_id op.account_id session st
                (repo.statesBySession op.session_id) (some op.id))],
            op := op }
    | _, _ =>
      .ok { events := [sendError conn op.account_id "Session or state not found" (some op.id)],
            op := op }

/-! ## Dispatch (`register_esms_handlers`, `_route_op`, `handle_client_op`) -/

/-- The dispatch table built by `register_esms_handlers`. -/
def handlersFor : OperationType → List HandlerFn
  | .session_join => [handle_session_join]
  | .session_leave => [handle_session_leave]
  | .exercise_add => [handle_exercise_add]
  | .exercise_update => [handle_exercise_update]
  | .exercise_delete => [handle_exercise_delete]
  | .set_add => [handle_set_add]
  | .set_complete => [handle_set_complete]
  | .cursor_move => [handle_cursor_move]
  | .sync_request => [handle_sync_request]
  | _ => []

/-- The operation kinds `_route_op` never re-broadcasts. -/
def noBroadcastTypes : List OperationType :=
  [.heartbeat, .sync_request, .sync_response]

/-- Source `_route_op`: run every registered handler for the kind in registration
order; a raised exception is caught, logged and counted and the loop
continues; afterwards, unless the operation has no session id or is of a
no-broadcast kind, the (possibly mutated) operation is broadcast to its
session excluding the originating connection. -/
def route_op (reg : Registry) (repo : Repo) (inst : String) (op : Op)
    (conn : String) : List Event × Op :=
  let step := (handlersFor op.type).foldl
    (fun acc h =>
      match h reg repo inst acc.2 conn with
      | .ok r => (acc.1 ++ r.events, r.op)
      | .error e => (acc.1 ++ [Event.logHandlerError e], acc.2))
    (([] : List Event), op)
  if step.2.session_id ≠ "" ∧ step.2.type ∉ noBroadcastTypes then
    (step.1 ++ [Event.broadcast step.2.session_id step.2 (some conn)], step.2)
  else step

/-- The decoded inbound JSON message as read by `handle_client_op`
(`payload.get(...)`; an absent key is `none`). -/
structure RawMessage where
  id : Option String := none
  type : Option String := none
  session_id : Option String := none
  payload : Payload := {}
  version : Option Int := none
  correlation_id : Option String := none
deriving DecidableEq, Repr

/-- Source `ExerciseSessionOperationType(payload["type"])`. -/
def parseOpType (s : String) : Option OperationType :=
  if s = "session_join" then some .session_join
  else if s = "session_leave" then some .session_leave
  else if s = "session_update" then some .session_update
  else if s = "session_sync" then some .session_sync
  else if s = "exercise_add" then some .exercise_add
  else if s = "exercise_update" then some .exercise_update
  else if s = "exercise_delete" then some .exercise_delete
  else if s = "exercise_reorder" then some .exercise_reorder
  else if s = "set_add" then some .set_add
  else if s = "set_update" then some .set_update
  else if s = "set_delete" then some .set_delete
  else if s = "set_complete" then some .set_complete
  else if s = "set_reorder" then some .set_reorder
  else if s = "cursor_move" then some .cursor_move
  else if s = "participant_join" then some .participant_join
  else if s = "participant_leave" then some .participant_leave
  else if s = "participant_update" then some .participant_update
  else if s = "heartbeat" then some .heartbeat
  else if s = "sync_request" then some .sync_request
  else if s = "sync_response" then some .sync_response
  else none

/-- The error reply of `handle_client_op`'s exception arm. -/
def dispatchErrorOp (inst : String) (info : ConnInfo) (correlation : Option String)
    (msg : String) : Op :=
  { id := freshId, type := .session_update,
    session_id := info.session_id.getD "", account_id := info.account_id,
    payload := .errorMsg msg none, version := 0,
    correlation_id := correlation, instance_id := some inst }

/-- Source `handle_client_op`: drop a message from an unknown connection; construct
the operation envelope — the actor id is forced to the connection's account,
the session id is the message's `session_id` key, defaulting to the bound
session or `""` — and route it; a failure to construct the envelope (an
unrecognized `type`) is answered with an error reply. -/
def handle_client_op (reg : Registry) (repo : Repo) (inst conn : String)
    (raw : RawMessage) : List Event :=
  match alookup reg.connections conn with
  | none => []
  | some info =>
    match raw.type with
    | none => [Event.sendOp conn (dispatchErrorOp inst info raw.id "missing type")]
    | some ts =>
      match parseOpType ts with
      | none =>
        [Event.sendOp conn
          (dispatchErrorOp inst info raw.id (ts ++ " is not a valid ExerciseSessionOperationType"))]
      | some t =>
        let op : Op :=
          { id := raw.id.getD freshId, type := t,
            session_id := raw.session_id.getD (info.session_id.getD ""),
            account_id := info.account_id, payload := .inbound raw.payload,
            version := raw.version.getD 0, correlation_id := raw.correlation_id,
            instance_id := some inst }
        (route_op reg repo inst op conn).1


/-! ## Helper lemmas -/

theorem alookup_mem {α : Type} : ∀ {l : List (String × α)} {k : String} {v : α},
    alookup l k = some v → (k, v) ∈ l := by
  intro l
  induction l with
  | nil => intro k v h; simp [alookup] at h
  | cons p rest ih =>
    intro k v h
    obtain ⟨pk, pv⟩ := p
    simp only [alookup] at h
    split at h
    · next heq => cases h; subst heq; exact List.mem_cons_self _ _
    · exact List.mem_cons_of_mem _ (ih h)

theorem wfOk_spec {reg : Registry} (h : reg.wfOk = true) {sid : String}
    {conns : List String} (hl : alookup reg.session_connections sid = some conns) :
    conns.Nodup ∧ ∀ c ∈ conns, ∃ info, alookup reg.connections c = some info ∧
      info.session_id = some sid := by
  have hmem := alookup_mem hl
  rw [Registry.wfOk, List.all_eq_true] at h
  have h2 := h _ hmem
  rw [Bool.and_eq_true] at h2
  obtain ⟨h3, h4⟩ := h2
  refine ⟨of_decide_eq_true h3, ?_⟩
  intro c hc
  rw [List.all_eq_true] at h4
  have h5 := h4 c hc
  split at h5
  · next info heq => exact ⟨info, heq, by simpa using h5⟩
  · simp at h5

theorem mem_getD_lookup {m : List (String × List String)} {k c : String}
    (h : c ∈ (alookup m k).getD []) :
    ∃ conns, alookup m k = some conns ∧ c ∈ conns := by
  cases hl : alookup m k with
  | none => rw [hl] at h; simp at h
  | some conns => rw [hl] at h; exact ⟨conns, rfl, h⟩

theorem mem_send_to_connection {reg : Registry} {x c : String} {op o : Op} :
    Event.deliver c o ∈ send_to_connection reg x op ↔
      c = x ∧ o = op ∧ (alookup reg.connections x).isSome := by
  unfold send_to_connection
  split
  · next heq => simp [heq]
  · next info heq => simp [heq, and_comm]

/-! ## C2: local fan-out of `broadcast_to_session` -/

/-- C2: every `broadcast_to_session(session_id, op, exclude_connection)` call
fans out locally exactly to the connections indexed under `session_id` minus
`exclude_connection`; under the registry invariant, every receiving
connection is registered and bound to that session, so no connection bound
to a different session (or to none) receives the operation. -/
theorem broadcast_to_session_local_fanout_exact
    (reg : Registry) (hwf : reg.wfOk = true) (inst session_id : String) (op : Op)
    (excl : Option String) (c : String) (o : Op) :
    (Event.deliver c o ∈ broadcast_to_session reg inst session_id op excl ↔
      c ∈ (alookup reg.session_connections session_id).getD [] ∧ some c ≠ excl ∧
        o = stampInstance inst op) ∧
    (Event.deliver c o ∈ broadcast_to_session reg inst session_id op excl →
      ∃ info, alookup reg.connections c = some info ∧
        info.session_id = some session_id) := by
  have key : Event.deliver c o ∈ broadcast_to_session reg inst session_id op excl ↔
      c ∈ (alookup reg.session_connections session_id).getD [] ∧ some c ≠ excl ∧
        o = stampInstance inst op ∧ (alookup reg.connections c).isSome := by
    unfold broadcast_to_session
    simp only [List.mem_cons, List.mem_flatMap, List.mem_filter]
    constructor
    · rintro (h | ⟨x, ⟨hx, hfil⟩, hsend⟩)
      · cases h
      · obtain ⟨rfl, rfl, hreg⟩ := mem_send_to_connection.mp hsend
        exact ⟨hx, of_decide_eq_true hfil, rfl, hreg⟩
    · rintro ⟨hc, hexcl, rfl, hreg⟩
      exact Or.inr ⟨c, ⟨hc, decide_eq_true hexcl⟩,
        mem_send_to_connection.mpr ⟨rfl, rfl, hreg⟩⟩
  constructor
  · constructor
    · intro h
      obtain ⟨h1, h2, h3, _⟩ := key.mp h
      exact ⟨h1, h2, h3⟩
    · rintro ⟨h1, h2, h3⟩
      obtain ⟨conns, hl, hcm⟩ := mem_getD_lookup h1
      obtain ⟨_, hwf2⟩ := wfOk_spec hwf hl
      obtain ⟨info, hinfo, _⟩ := hwf2 c hcm
      exact key.mpr ⟨h1, h2, h3, by rw [hinfo]; rfl⟩
  · intro h
    obtain ⟨h1, _, _, _⟩ := key.mp h
    obtain ⟨conns, hl, hcm⟩ := mem_getD_lookup h1
    obtain ⟨_, hwf2⟩ := wfOk_spec hwf hl
    exact hwf2 c hcm

/-- A concrete registry used by witnesses: two connections in session `s1`,
one in session `s2`. -/
def regW : Registry :=
  { connections :=
      [("c1", { account_id := "a1", session_id := some "s1", instance_id := "i1" }),
       ("c2", { account_id := "a2", session_id := some "s1", instance_id := "i1" }),
       ("c3", { account_id := "a3", session_id := some "s2", instance_id := "i1" })],
    session_connections := [("s1", ["c1", "c2"]), ("s2", ["c3"])],
    account_connections := [("a1", ["c1"]), ("a2", ["c2"]), ("a3", ["c3"])] }

/-- A concrete inbound operation used by witnesses. -/
def opW : Op :=
  { id := "op-1", type := .exercise_add, session_id := "s1", account_id := "a1",
    payload := .inbound {}, version := 0, correlation_id := none,
    instance_id := none }

theorem broadcast_to_session_local_fanout_exact_witness :
    regW.wfOk = true ∧
    (Event.deliver "c2" (stampInstance "i1" opW) ∈
        broadcast_to_session regW "i1" "s1" opW (some "c1") ↔
      "c2" ∈ (alookup regW.session_connections "s1").getD [] ∧
        some "c2" ≠ some "c1" ∧
        stampInstance "i1" opW = stampInstance "i1" opW) :=
  ⟨by decide,
   (broadcast_to_session_local_fanout_exact regW (by decide) "i1" "s1" opW
      (some "c1") "c2" (stampInstance "i1" opW)).1⟩

/-! ## C6: pub/sub listener filtering and fan-out -/

theorem countEvent_append (e : Event) (l1 l2 : List Event) :
    countEvent e (l1 ++ l2) = countEvent e l1 + countEvent e l2 := by
  simp [countEvent, List.filter_append]

theorem countEvent_deliver_flatMap_zero {reg : Registry} {op : Op}
    {conns : List String} {c : String} (hc : c ∉ conns) :
    countEvent (Event.deliver c op)
      (conns.flatMap fun x => send_to_connection reg x op) = 0 := by
  induction conns with
  | nil => rfl
  | cons x rest ih =>
    have hne : c ≠ x := fun h => hc (h ▸ List.mem_cons_self _ _)
    have hrest : c ∉ rest := fun h => hc (List.mem_cons_of_mem _ h)
    rw [List.flatMap_cons, countEvent_append, ih hrest]
    unfold send_to_connection
    split
    · rfl
    · simp [countEvent, Ne.symm hne]

theorem countEvent_deliver_flatMap_one {reg : Registry} {op : Op}
    {conns : List String} {c : String} (hnd : conns.Nodup) (hc : c ∈ conns)
    (hreg : (alookup reg.connections c).isSome) :
    countEvent (Event.deliver c op)
      (conns.flatMap fun x => send_to_connection reg x op) = 1 := by
  induction conns with
  | nil => cases hc
  | cons x rest ih =>
    rw [List.flatMap_cons, countEvent_append]
    rcases List.mem_cons.mp hc with rfl | hcr
    · have hnot : c ∉ rest := (List.nodup_cons.mp hnd).1
      rw [countEvent_deliver_flatMap_zero hnot]
      unfold send_to_connection
      cases hl : alookup reg.connections c with
      | none => rw [hl] at hreg; cases hreg
      | some info => simp [countEvent]
    · have hne : c ≠ x := by
        rintro rfl; exact (List.nodup_cons.mp hnd).1 hcr
      rw [ih (List.nodup_cons.mp hnd).2 hcr]
      unfold send_to_connection
      split
      · rfl
      · simp [countEvent, Ne.symm hne]

/-- C6: the pub/sub listener discards an operation whose origin instance id
is this instance's own id (no local delivery); otherwise it delivers it
exactly once to each local connection indexed under the operation's
`session_id`, and to no other connection. -/
theorem pubsub_listener_filters_origin_and_targets_session
    (reg : Registry) (hwf : reg.wfOk = true) (inst : String) (op : Op) :
    (op.instance_id = some inst → handle_pubsub_op reg inst op = []) ∧
    (∀ c o, Event.deliver c o ∈ handle_pubsub_op reg inst op →
        op.instance_id ≠ some inst ∧
        c ∈ (alookup reg.session_connections op.session_id).getD [] ∧ o = op) ∧
    (op.instance_id ≠ some inst →
      ∀ c, c ∈ (alookup reg.session_connections op.session_id).getD [] →
        countEvent (Event.deliver c op) (handle_pubsub_op reg inst op) = 1) := by
  refine ⟨?_, ?_, ?_⟩
  · intro h
    unfold handle_pubsub_op
    rw [if_pos h]
  · intro c o hmem
    unfold handle_pubsub_op at hmem
    split at hmem
    · cases hmem
    · next hne =>
      obtain ⟨x, hx, hsend⟩ := List.mem_flatMap.mp hmem
      obtain ⟨rfl, rfl, _⟩ := mem_send_to_connection.mp hsend
      exact ⟨hne, hx, rfl⟩
  · intro hne c hc
    unfold handle_pubsub_op
    rw [if_neg hne]
    obtain ⟨conns, hl, hcm⟩ := mem_getD_lookup hc
    obtain ⟨hnd, hwf2⟩ := wfOk_spec hwf hl
    obtain ⟨info, hinfo, _⟩ := hwf2 c hcm
    rw [hl]
    exact countEvent_deliver_flatMap_one hnd hcm (by rw [hinfo]; rfl)

/-- A remote operation (stamped by another instance) used by the C6
witness. -/
def opRemote : Op :=
  { id := "op-2", type := .exercise_add, session_id := "s1", account_id := "a9",
    payload := .inbound {}, version := 3, correlation_id := none,
    instance_id := some "i2" }

theorem pubsub_listener_filters_origin_and_targets_session_witness :
    ({ opRemote with instance_id := some "i1" } : Op).instance_id = some "i1" ∧
    handle_pubsub_op regW "i1" { opRemote with instance_id := some "i1" } = [] ∧
    opRemote.instance_id ≠ some "i1" ∧
    countEvent (Event.deliver "c1" opRemote) (handle_pubsub_op regW "i1" opRemote) = 1 :=
  ⟨by decide, (pubsub_listener_filters_origin_and_targets_session regW (by decide)
      "i1" { opRemote with instance_id := some "i1" }).1 (by decide),
   by decide,
   (pubsub_listener_filters_origin_and_targets_session regW (by decide)
      "i1" opRemote).2.2 (by decide) "c1" (by decide)⟩

/-! ## Persist characterization of the mutating handlers (for C1 and C8) -/

/-- What holds of a handler run that persisted state `st'`: the state was
fetched through `get_active_session_state_by_user`, its version was bumped by
exactly 1, the outgoing operation carries the new version, and the handler
itself issued no broadcast (the dispatcher appends the only broadcast after
the handler returns). -/
def PersistShape (repo : Repo) (op : Op) (r : HandlerOut) (st' : SessionState) : Prop :=
  ∃ st, get_active_session_state_by_user repo op.account_id = some st ∧
    st'.version = st.version + 1 ∧ r.op.version = st'.version ∧
    r.op.session_id = op.session_id ∧ op.session_id ≠ "" ∧
    r.op.type = op.type ∧ ∀ e ∈ r.events, e.isBroadcast = false

theorem handle_exercise_add_persist {reg : Registry} {repo : Repo} {inst : String}
    {op : Op} {conn : String} {r : HandlerOut} {k : String} {t : Nat}
    {st' : SessionState}
    (h : handle_exercise_add reg repo inst op conn = .ok r)
    (hm : Event.cacheSet k t st' ∈ r.events) : PersistShape repo op r st' := by
  simp only [handle_exercise_add] at h
  split at h
  · next hs => cases h; simp [sendError] at hm
  · next hs =>
    split at h
    · cases h; simp [sendError] at hm
    · next state hstate =>
      split at h
      · cases h
      · next metas hmetas =>
        cases h
        unfold update_session_state at hm
        split at hm
        · simp at hm
        · next hsess =>
          simp only [List.mem_singleton] at hm
          injection hm with _ _ hst
          subst hst
          exact ⟨state, hstate, rfl, rfl, rfl, hs, rfl, by
            unfold update_session_state
            rw [hsess]
            intro e he
            simp only [List.mem_singleton] at he
            subst he
            rfl⟩

theorem handle_exercise_update_persist {reg : Registry} {repo : Repo} {inst : String}
    {op : Op} {conn : String} {r : HandlerOut} {k : String} {t : Nat}
    {st' : SessionState}
    (h : handle_exercise_update reg repo inst op conn = .ok r)
    (hm : Event.cacheSet k t st' ∈ r.events) : PersistShape repo op r st' := by
  simp only [handle_exercise_update] at h
  split at h
  · next hs => cases h; simp [sendError] at hm
  · next hs =>
    split at h
    · cases h; simp [sendError] at hm
    · split at h
      · cases h; simp [sendError] at hm
      · next state hstate =>
        split at h
        · cases h; simp [sendError] at hm
        · next items' hitems =>
          cases h
          unfold update_session_state at hm
          split at hm
          · simp at hm
          · next hsess =>
            simp only [List.mem_singleton] at hm
            injection hm with _ _ hst
            subst hst
            exact ⟨state, hstate, rfl, rfl, rfl, hs, rfl, by
              unfold update_session_state
              rw [hsess]
              intro e he
              simp only [List.mem_singleton] at he
              subst he
              rfl⟩

theorem handle_exercise_delete_persist {reg : Registry} {repo : Repo} {inst : String}
    {op : Op} {conn : String} {r : HandlerOut} {k : String} {t : Nat}
    {st' : SessionState}
    (h : handle_exercise_delete reg repo inst op conn = .ok r)
    (hm : Event.cacheSet k t st' ∈ r.events) :
    PersistShape repo op r st' ∧ ∃ l, st'.items = renumberFrom 1 l := by
  simp only [handle_exercise_delete] at h
  split at h
  · next hs => cases h; simp [sendError] at hm
  · next hs =>
    split at h
    · cases h; simp [sendError] at hm
    · split at h
      · cases h; simp [sendError] at hm
      · next state hstate =>
        split at h
        · cases h; simp [sendError] at hm
        · cases h
          unfold update_session_state at hm
          split at hm
          · simp at hm
          · next hsess =>
            simp only [List.mem_singleton] at hm
            injection hm with _ _ hst
            subst hst
            refine ⟨⟨state, hstate, rfl, rfl, rfl, hs, rfl, by
              unfold update_session_state
              rw [hsess]
              intro e he
              simp only [List.mem_singleton] at he
              subst he
              rfl⟩, _, rfl⟩

theorem handle_set_add_persist {reg : Registry} {repo : Repo} {inst : String}
    {op : Op} {conn : String} {r : HandlerOut} {k : String} {t : Nat}
    {st' : SessionState}
    (h : handle_set_add reg repo inst op conn = .ok r)
    (hm : Event.cacheSet k t st' ∈ r.events) : PersistShape repo op r st' := by
  simp only [handle_set_add] at h
  split at h
  · next hs => cases h; simp [sendError] at hm
  · next hs =>
    split at h
    · cases h; simp [sendError] at hm
    · split at h
      · cases h; simp [sendError] at hm
      · next state hstate =>
        split at h
        · cases h; simp [sendError] at hm
        · next pr hpr =>
          cases h
          unfold update_session_state at hm
          split at hm
          · simp at hm
          · next hsess =>
            simp only [List.mem_singleton] at hm
            injection hm with _ _ hst
            subst hst
            exact ⟨state, hstate, rfl, rfl, rfl, hs, rfl, by
              unfold update_session_state
              rw [hsess]
              intro e he
              simp only [List.mem_singleton] at he
              subst he
              rfl⟩

theorem handle_set_complete_persist {reg : Registry} {repo : Repo} {inst : String}
    {op : Op} {conn : String} {r : HandlerOut} {k : String} {t : Nat}
    {st' : SessionState}
    (h : handle_set_complete reg repo inst op conn = .ok r)
    (hm : Event.cacheSet k t st' ∈ r.events) : PersistShape repo op r st' := by
  simp only [handle_set_complete] at h
  split at h
  · next hs => cases h; simp [sendError] at hm
  · next hs =>
    split at h
    · cases h; simp [sendError] at hm
    · split at h
      · cases h; simp [sendError] at hm
      · next state hstate =>
        split at h
        · cases h; simp [sendError] at hm
        · next items' hitems =>
          cases h
          unfold update_session_state at hm
          split at hm
          · simp at hm
          · next hsess =>
            simp only [List.mem_singleton] at hm
            injection hm with _ _ hst
            subst hst
            exact ⟨state, hstate, rfl, rfl, rfl, hs, rfl, by
              unfold update_session_state
              rw [hsess]
              intro e he
              simp only [List.mem_singleton] at he
              subst he
              rfl⟩

theorem route_op_single_ok {reg : Registry} {repo : Repo} {inst : String} {op : Op}
    {conn : String} {h : HandlerFn} {r : HandlerOut}
    (hh : handlersFor op.type = [h]) (hres : h reg repo inst op conn = .ok r) :
    route_op reg repo inst op conn =
      if r.op.session_id ≠ "" ∧ r.op.type ∉ noBroadcastTypes then
        (r.events ++ [Event.broadcast r.op.session_id r.op (some conn)], r.op)
      else (r.events, r.op) := by
  unfold route_op
  rw [hh]
  simp [hres]

theorem route_op_single_error {reg : Registry} {repo : Repo} {inst : String} {op : Op}
    {conn : String} {h : HandlerFn} {e : String}
    (hh : handlersFor op.type = [h]) (hres : h reg repo inst op conn = .error e) :
    route_op reg repo inst op conn =
      if op.session_id ≠ "" ∧ op.type ∉ noBroadcastTypes then
        ([Event.logHandlerError e, Event.broadcast op.session_id op (some conn)], op)
      else ([Event.logHandlerError e], op) := by
  unfold route_op
  rw [hh]
  simp [hres]

theorem route_persist_generic {reg : Registry} {repo : Repo} {inst : String}
    {op : Op} {conn : String} {h : HandlerFn}
    (hh : handlersFor op.type = [h])
    (hpersist : ∀ {r : HandlerOut} {k : String} {t : Nat} {st' : SessionState},
      h reg repo inst op conn = .ok r → Event.cacheSet k t st' ∈ r.events →
      PersistShape repo op r st')
    (hnb : op.type ∉ noBroadcastTypes)
    {k : String} {t : Nat} {st' : SessionState}
    (hp : Event.cacheSet k t st' ∈ (route_op reg repo inst op conn).1) :
    ∃ st, get_active_session_state_by_user repo op.account_id = some st ∧
      st'.version = st.version + 1 ∧
      (route_op reg repo inst op conn).2.version = st'.version ∧
      ∃ hevs, (route_op reg repo inst op conn).1 =
          hevs ++ [Event.broadcast op.session_id (route_op reg repo inst op conn).2
            (some conn)] ∧
        Event.cacheSet k t st' ∈ hevs ∧ ∀ e ∈ hevs, e.isBroadcast = false := by
  cases hres : h reg repo inst op conn with
  | error e =>
    rw [route_op_single_error hh hres] at hp
    split at hp <;> simp at hp
  | ok r =>
    rw [route_op_single_ok hh hres] at hp
    have hpm : Event.cacheSet k t st' ∈ r.events := by
      split at hp
      · simp only [List.mem_append, List.mem_singleton] at hp
        rcases hp with hp | hp
        · exact hp
        · cases hp
      · exact hp
    obtain ⟨st, hst, hv, hrv, hsid, hne, hrty, hnob⟩ := hpersist hres hpm
    have hcond : r.op.session_id ≠ "" ∧ r.op.type ∉ noBroadcastTypes := by
      constructor
      · rw [hsid]; exact hne
      · rw [hrty]; exact hnb
    rw [route_op_single_ok hh hres, if_pos hcond]
    exact ⟨st, hst, hv, hrv, r.events, by rw [hsid], hpm, hnob⟩

/-- C1: for every accepted mutation (`exercise_add`/`exercise_update`/
`exercise_delete`/`set_add`/`set_complete` run that persisted a state), the
participant state's version was incremented by exactly 1 over the fetched
state, the persisted write (`update_session_state`) strictly precedes the
single dispatcher broadcast, and the broadcast operation carries the new
version. -/
theorem accepted_mutations_bump_version_and_persist_before_broadcast
    (reg : Registry) (repo : Repo) (inst : String) (op : Op) (conn : String)
    (hty : op.type = .exercise_add ∨ op.type = .exercise_update ∨
      op.type = .exercise_delete ∨ op.type = .set_add ∨ op.type = .set_complete)
    (k : String) (t : Nat) (st' : SessionState)
    (hp : Event.cacheSet k t st' ∈ (route_op reg repo inst op conn).1) :
    ∃ st, get_active_session_state_by_user repo op.account_id = some st ∧
      st'.version = st.version + 1 ∧
      (route_op reg repo inst op conn).2.version = st'.version ∧
      ∃ hevs, (route_op reg repo inst op conn).1 =
          hevs ++ [Event.broadcast op.session_id (route_op reg repo inst op conn).2
            (some conn)] ∧
        Event.cacheSet k t st' ∈ hevs ∧ ∀ e ∈ hevs, e.isBroadcast = false := by
  rcases hty with hty | hty | hty | hty | hty
  · exact route_persist_generic (by rw [hty]; rfl)
      (fun hr hm => handle_exercise_add_persist hr hm) (by rw [hty]; decide) hp
  · exact route_persist_generic (by rw [hty]; rfl)
      (fun hr hm => handle_exercise_update_persist hr hm) (by rw [hty]; decide) hp
  · exact route_persist_generic (by rw [hty]; rfl)
      (fun hr hm => (handle_exercise_delete_persist hr hm).1) (by rw [hty]; decide) hp
  · exact route_persist_generic (by rw [hty]; rfl)
      (fun hr hm => handle_set_add_persist hr hm) (by rw [hty]; decide) hp
  · exact route_persist_generic (by rw [hty]; rfl)
      (fun hr hm => handle_set_complete_persist hr hm) (by rw [hty]; decide) hp

/-- A concrete active session, cached participant state and repository
snapshot used by witnesses. -/
def sessW : Session :=
  { id := "s1", status := .active, owner_id := "a1",
    participants := [{ id := "a1" }, { id := "a2" }] }

def stateW : SessionState :=
  { session_id := "s1", account_id := "a1", version := 4, items := [] }

def repoW : Repo :=
  { sessionById := fun s => if s = "s1" then some sessW else none,
    activeSessionByUser := fun a => if a = "a1" then some sessW else none,
    cacheGet := fun key =>
      if key = build_state_key "s1" "a1" then some stateW else none,
    statesBySession := fun _ => [] }

/-- The state `handle_exercise_add` persists when `opW` is dispatched against
`repoW`. -/
def stateW' : SessionState :=
  { session_id := "s1", account_id := "a1", version := 5,
    items := [{ id := freshId, order := 1, participants := ["a1"],
                type := .single, rest := some 90, meta := [], sets := [] }] }

theorem accepted_mutations_bump_version_and_persist_before_broadcast_witness :
    (opW.type = .exercise_add ∨ opW.type = .exercise_update ∨
      opW.type = .exercise_delete ∨ opW.type = .set_add ∨
      opW.type = .set_complete) ∧
    Event.cacheSet (build_state_key "s1" "a1") 3600 stateW' ∈
      (route_op regW repoW "i1" opW "c1").1 ∧
    ∃ st, get_active_session_state_by_user repoW opW.account_id = some st ∧
      stateW'.version = st.version + 1 ∧
      (route_op regW repoW "i1" opW "c1").2.version = stateW'.version ∧
      ∃ hevs, (route_op regW repoW "i1" opW "c1").1 =
          hevs ++ [Event.broadcast opW.session_id
            (route_op regW repoW "i1" opW "c1").2 (some "c1")] ∧
        Event.cacheSet (build_state_key "s1" "a1") 3600 stateW' ∈ hevs ∧
        ∀ e ∈ hevs, e.isBroadcast = false :=
  ⟨Or.inl rfl, by decide,
   accepted_mutations_bump_version_and_persist_before_broadcast regW repoW "i1"
     opW "c1" (Or.inl rfl) (build_state_key "s1" "a1") 3600 stateW' (by decide)⟩

/-! ## C8: order renormalization after deletion -/

def intRangeFrom (i : Int) : Nat → List Int
  | 0 => []
  | n + 1 => i :: intRangeFrom (i + 1) n

/-- The `order` fields form the contiguous 1-based sequence `1, 2, ..., n`. -/
def ordersContiguous (l : List Item) : Prop :=
  l.map (fun it => it.order) = intRangeFrom 1 l.length

theorem renumberFrom_map_order (l : List Item) :
    ∀ i : Int, (renumberFrom i l).map (fun it => it.order) = intRangeFrom i l.length := by
  induction l with
  | nil => intro i; rfl
  | cons it rest ih => intro i; simp [renumberFrom, intRangeFrom, ih]

theorem renumberFrom_length (l : List Item) :
    ∀ i : Int, (renumberFrom i l).length = l.length := by
  induction l with
  | nil => intro i; rfl
  | cons it rest ih => intro i; simp [renumberFrom, ih]

theorem ordersContiguous_renumber (l : List Item) :
    ordersContiguous (renumberFrom 1 l) := by
  unfold ordersContiguous
  rw [renumberFrom_map_order, renumberFrom_length]

/-- C8: every state persisted by an item deletion has item `order` fields
forming the contiguous sequence `1, 2, ..., n`; set deletions are vacuous:
`set_delete` has no registered handler, so no set deletion ever persists
state (the same persistence-trace statement covers it). -/
theorem deletion_renormalizes_orders_contiguously :
    (∀ (reg : Registry) (repo : Repo) (inst : String) (op : Op) (conn : String)
        (k : String) (t : Nat) (st' : SessionState),
      op.type = .exercise_delete ∨ op.type = .set_delete →
      Event.cacheSet k t st' ∈ (route_op reg repo inst op conn).1 →
      ordersContiguous st'.items) ∧
    handlersFor .set_delete = [] := by
  constructor
  · intro reg repo inst op conn k t st' hty hp
    rcases hty with hty | hty
    · have hh : handlersFor op.type = [handle_exercise_delete] := by rw [hty]; rfl
      cases hres : handle_exercise_delete reg repo inst op conn with
      | error e =>
        rw [route_op_single_error hh hres] at hp
        split at hp <;> simp at hp
      | ok r =>
        rw [route_op_single_ok hh hres] at hp
        have hpm : Event.cacheSet k t st' ∈ r.events := by
          split at hp
          · rcases List.mem_append.mp hp with hp2 | hp2
            · exact hp2
            · simp at hp2
          · exact hp
        obtain ⟨_, l, hl⟩ := handle_exercise_delete_persist hres hpm
        exact hl ▸ ordersContiguous_renumber l
    · have hh : handlersFor op.type = ([] : List HandlerFn) := by rw [hty]; rfl
      unfold route_op at hp
      rw [hh] at hp
      simp only [List.foldl_nil] at hp
      split at hp <;> simp at hp
  · rfl

/-- A cached state with three items, and an `exercise_delete` operation
removing the middle one, used by the C8 witness. -/
def stateD : SessionState :=
  { session_id := "s1", account_id := "a1", version := 4,
    items := [{ id := "e1", order := 1 }, { id := "e2", order := 2 },
              { id := "e3", order := 3 }] }

def repoD : Repo :=
  { sessionById := fun s => if s = "s1" then some sessW else none,
    activeSessionByUser := fun a => if a = "a1" then some sessW else none,
    cacheGet := fun key =>
      if key = build_state_key "s1" "a1" then some stateD else none,
    statesBySession := fun _ => [] }

def opDel : Op :=
  { id := "op-3", type := .exercise_delete, session_id := "s1",
    account_id := "a1", payload := .inbound { exercise_id := some "e2" },
    version := 0, correlation_id := none, instance_id := some "i1" }

def stateD' : SessionState :=
  { session_id := "s1", account_id := "a1", version := 5,
    items := [{ id := "e1", order := 1 }, { id := "e3", order := 2 }] }

theorem deletion_renormalizes_orders_contiguously_witness :
    (opDel.type = .exercise_delete ∨ opDel.type = .set_delete) ∧
    Event.cacheSet (build_state_key "s1" "a1") 3600 stateD' ∈
      (route_op regW repoD "i1" opDel "c1").1 ∧
    ordersContiguous stateD'.items :=
  ⟨Or.inl rfl, by decide,
   deletion_renormalizes_orders_contiguously.1 regW repoD "i1" opDel "c1"
     (build_state_key "s1" "a1") 3600 stateD' (Or.inl rfl) (by decide)⟩

/-! ## C3: `exercise_delete` of a missing exercise id -/

/-- Whether an event is a cache write (`update_session_state` /
`create_session_state` persisting a participant state). -/
def Event.isCacheSet : Event → Bool
  | .cacheSet _ _ _ => true
  | _ => false

/-- An `exercise_delete` whose `exercise_id` matches nothing in the sender's
state. -/
def opDelMissing : Op :=
  { id := "op-4", type := .exercise_delete, session_id := "s1",
    account_id := "a1", payload := .inbound { exercise_id := some "zz" },
    version := 0, correlation_id := none, instance_id := some "i1" }

/-- C3 counterexample: deleting a missing `exercise_id` sends the sender a
`NotFound`-style error and persists nothing, but `_route_op` still
broadcasts the unmodified operation to the session — the claim's
"no broadcast emitted" conjunct is false on the code. -/
theorem exercise_delete_missing_still_broadcasts :
    (route_op regW repoD "i1" opDelMissing "c1").1 =
      [sendError "c1" "a1" "Exercise not found" (some "op-4"),
       Event.broadcast "s1" opDelMissing (some "c1")] ∧
    Event.broadcast "s1" opDelMissing (some "c1") ∈
      (route_op regW repoD "i1" opDelMissing "c1").1 ∧
    ((route_op regW repoD "i1" opDelMissing "c1").1.filter
      (fun e => e.isCacheSet)) = [] := by
  refine ⟨?_, ?_, ?_⟩ <;> decide

/-- C3 amended: when a participant sends `exercise_delete` for an
`exercise_id` not present in their state, the sender receives an
"Exercise not found" client-error reply and the state is neither mutated nor
persisted (no cache write, version untouched), but the dispatcher
nevertheless broadcasts the unmodified operation to the session. -/
theorem exercise_delete_missing_errors_no_persist_but_broadcasts
    (reg : Registry) (repo : Repo) (inst : String) (op : Op) (conn : String)
    (p : Payload) (eid : String) (st : SessionState)
    (hty : op.type = .exercise_delete) (hpl : op.payload = .inbound p)
    (hsid : op.session_id ≠ "") (heid : p.exercise_id = some eid)
    (hne : eid ≠ "")
    (hst : get_active_session_state_by_user repo op.account_id = some st)
    (hmiss : ∀ it ∈ st.items, it.id ≠ eid) :
    route_op reg repo inst op conn =
      ([sendError conn op.account_id "Exercise not found" (some op.id),
        Event.broadcast op.session_id op (some conn)], op) := by
  have hip : op.inPayload = p := by rw [Op.inPayload, hpl]
  have hh : handlersFor op.type = [handle_exercise_delete] := by rw [hty]; rfl
  have hfil : st.items.filter (fun it => decide (it.id ≠ eid)) = st.items :=
    List.filter_eq_self.mpr (fun a ha => decide_eq_true (hmiss a ha))
  have hres : handle_exercise_delete reg repo inst op conn =
      .ok { events := [sendError conn op.account_id "Exercise not found" (some op.id)],
            op := op } := by
    simp only [handle_exercise_delete, hip, heid, hst]
    rw [if_neg (by simpa using hsid)]
    rw [if_neg (by simp [truthy, hne])]
    simp only [Option.getD_some]
    rw [hfil, if_pos rfl]
  rw [route_op_single_ok hh hres,
    if_pos ⟨hsid, by rw [hty]; decide⟩]
  rfl

theorem exercise_delete_missing_errors_no_persist_but_broadcasts_witness :
    (∀ it ∈ stateD.items, it.id ≠ "zz") ∧
    route_op regW repoD "i1" opDelMissing "c1" =
      ([sendError "c1" opDelMissing.account_id "Exercise not found"
          (some opDelMissing.id),
        Event.broadcast opDelMissing.session_id opDelMissing (some "c1")],
       opDelMissing) :=
  ⟨by decide,
   exercise_delete_missing_errors_no_persist_but_broadcasts regW repoD "i1"
     opDelMissing "c1" { exercise_id := some "zz" } "zz" stateD rfl rfl
     (by decide) rfl (by decide) (by decide) (by decide)⟩

/-! ## C4: handler exceptions -/

/-- A `cursor_move` whose cursor payload lacks the ids: constructing the
pydantic cursor object raises inside the handler. -/
def opCursorBad : Op :=
  { id := "op-5", type := .cursor_move, session_id := "s1", account_id := "a1",
    payload := .inbound { cursor := some {} }, version := 0,
    correlation_id := none, instance_id := some "i1" }

/-- C4 counterexample: a handler exception is caught, logged and counted,
and dispatch continues — but no client-error reply is sent to the
originating connection (the trace has no `send_to_connection` call at all),
refuting the claim's reply conjunct.  The unmodified operation is even still
broadcast. -/
theorem handler_exception_no_client_reply_example :
    (route_op regW repoW "i1" opCursorBad "c1").1 =
      [Event.logHandlerError "validation error for ExerciseSessionParticipantCursor",
       Event.broadcast "s1" opCursorBad (some "c1")] ∧
    ((route_op regW repoW "i1" opCursorBad "c1").1.filter
      (fun e => e.isSendOp)) = [] := by
  constructor <;> decide

/-- C4 amended: when a registered handler raises, `_route_op` catches the
exception, logs and counts it, and the dispatch continues (the kind's
broadcast step still runs and later operations are unaffected) — but the
originating connection receives no client-error reply for a handler
exception; only envelope-construction failures in `handle_client_op` are
answered with one. -/
theorem handler_exceptions_caught_logged_counted_without_reply
    (reg : Registry) (repo : Repo) (inst : String) (op : Op) (conn : String)
    (h : HandlerFn) (e : String)
    (hh : handlersFor op.type = [h])
    (hres : h reg repo inst op conn = .error e) :
    route_op reg repo inst op conn =
      (Event.logHandlerError e ::
        (if op.session_id ≠ "" ∧ op.type ∉ noBroadcastTypes then
          [Event.broadcast op.session_id op (some conn)] else []), op) ∧
    ∀ ev ∈ (route_op reg repo inst op conn).1, ev.isSendOp = false := by
  constructor
  · rw [route_op_single_error hh hres]
    by_cases hc : op.session_id ≠ "" ∧ op.type ∉ noBroadcastTypes
    · rw [if_pos hc, if_pos hc]
    · rw [if_neg hc, if_neg hc]
  · intro ev hev
    rw [route_op_single_error hh hres] at hev
    by_cases hc : op.session_id ≠ "" ∧ op.type ∉ noBroadcastTypes
    · rw [if_pos hc] at hev
      simp only [List.mem_cons, List.mem_singleton, List.not_mem_nil,
        or_false] at hev
      rcases hev with rfl | rfl <;> rfl
    · rw [if_neg hc] at hev
      simp only [List.mem_singleton] at hev
      subst hev
      rfl

theorem handler_exceptions_caught_logged_counted_without_reply_witness :
    handle_cursor_move regW repoW "i1" opCursorBad "c1" =
      .error "validation error for ExerciseSessionParticipantCursor" ∧
    route_op regW repoW "i1" opCursorBad "c1" =
      (Event.logHandlerError "validation error for ExerciseSessionParticipantCursor" ::
        (if opCursorBad.session_id ≠ "" ∧ opCursorBad.type ∉ noBroadcastTypes then
          [Event.broadcast opCursorBad.session_id opCursorBad (some "c1")]
        else []), opCursorBad) :=
  ⟨rfl,
   (handler_exceptions_caught_logged_counted_without_reply regW repoW "i1"
     opCursorBad "c1" handle_cursor_move
     "validation error for ExerciseSessionParticipantCursor" rfl rfl).1⟩

/-! ## C5: session-join authorization -/

/-- A session in DRAFT status whose owner attempts to join. -/
def sessDraft : Session :=
  { id := "s2", status := .draft, owner_id := "a1", participants := [] }

def repoJ : Repo :=
  { sessionById := fun s => if s = "s2" then some sessDraft else none,
    activeSessionByUser := fun _ => none,
    cacheGet := fun _ => none,
    statesBySession := fun _ => [] }

/-- A registry with one unbound connection. -/
def regU : Registry :=
  { connections := [("c1", { account_id := "a1", session_id := none,
                             instance_id := "i1" })],
    session_connections := [],
    account_connections := [("a1", ["c1"])] }

def opJoinDraft : Op :=
  { id := "op-6", type := .session_join, session_id := "", account_id := "a1",
    payload := .inbound { session_id := some "s2" }, version := 0,
    correlation_id := none, instance_id := some "i1" }

/-- C5 counterexample: `handle_session_join` binds the connection to a
session whose status is DRAFT (the owner check passes, the ACTIVE check the
claim requires does not exist in the code). -/
theorem session_join_binds_draft_session :
    (repoJ.sessionById "s2").map (fun s => s.status) = some .draft ∧
    Event.bind "c1" "s2" ∈ (route_op regU repoJ "i1" opJoinDraft "c1").1 := by
  constructor <;> decide

/-- The effect trace of a handler run (empty for a raised exception). -/
def handlerEvents : Except String HandlerOut → List Event
  | .ok r => r.events
  | .error _ => []

/-- C5 amended: a `session_join` binds the connection iff the session exists
and the joining account is the owner or a listed participant — the session's
status is never checked; a missing session or a failed membership check is
answered with "Session not found" / "Access denied" and does not bind. -/
theorem session_join_checks_existence_and_membership_only
    (reg : Registry) (repo : Repo) (inst : String) (op : Op) (conn : String)
    (p : Payload) (sid : String)
    (hpl : op.payload = .inbound p) (hsid : p.session_id = some sid)
    (hne : sid ≠ "") :
    (repo.sessionById sid = none →
      handle_session_join reg repo inst op conn =
        .ok { events := [sendError conn op.account_id "Session not found" (some op.id)],
              op := op }) ∧
    (∀ sess, repo.sessionById sid = some sess →
      sess.owner_id ≠ op.account_id →
      sess.participants.any (fun q => q.id = op.account_id) = false →
      handle_session_join reg repo inst op conn =
        .ok { events := [sendError conn op.account_id "Access denied" (some op.id)],
              op := op }) ∧
    (∀ sess info, repo.sessionById sid = some sess →
      (sess.owner_id = op.account_id ∨
        sess.participants.any (fun q => q.id = op.account_id) = true) →
      alookup reg.connections conn = some info →
      Event.bind conn sid ∈
        handlerEvents (handle_session_join reg repo inst op conn)) := by
  have hip : op.inPayload = p := by rw [Op.inPayload, hpl]
  refine ⟨?_, ?_, ?_⟩
  · intro hnone
    simp only [handle_session_join, hip, hsid]
    rw [if_neg (by simp [truthy, hne])]
    simp only [Option.getD_some, hnone]
  · intro sess hsess howner hpart
    simp only [handle_session_join, hip, hsid]
    rw [if_neg (by simp [truthy, hne])]
    simp only [Option.getD_some, hsess]
    rw [if_pos ⟨howner, by simp [hpart]⟩]
  · intro sess info hsess hmem hinfo
    have hcond : ¬(sess.owner_id ≠ op.account_id ∧
        ¬ sess.participants.any (fun q => q.id = op.account_id)) := by
      rcases hmem with hmem | hmem
      · exact fun hc => hc.1 hmem
      · exact fun hc => hc.2 (by simp [hmem])
    simp only [handle_session_join, hip, hsid]
    rw [if_neg (by simp [truthy, hne])]
    simp only [Option.getD_some, hsess]
    rw [if_neg hcond]
    simp only [handlerEvents]
    apply List.mem_append_left
    apply List.mem_append_left
    simp [join_session_svc, hinfo]

theorem session_join_checks_existence_and_membership_only_witness :
    opJoinDraft.payload = .inbound { session_id := some "s2" } ∧
    repoJ.sessionById "s2" = some sessDraft ∧
    sessDraft.owner_id = opJoinDraft.account_id ∧
    Event.bind "c1" "s2" ∈
      handlerEvents (handle_session_join regU repoJ "i1" opJoinDraft "c1") :=
  ⟨rfl, rfl, rfl,
   (session_join_checks_existence_and_membership_only regU repoJ "i1"
     opJoinDraft "c1" { session_id := some "s2" } "s2" rfl rfl
     (by decide)).2.2 sessDraft
     { account_id := "a1", session_id := none, instance_id := "i1" }
     rfl (Or.inl rfl) rfl⟩

/-! ## C7 and C10: `create_session_state` -/

/-- C7 counterexample: `create_session_state` succeeds against a session in
DRAFT status — the ACTIVE-status requirement the claim states does not exist
in the code, and a missing session yields a bare `None` rather than distinct
SessionNotFound/SessionNotActive outcomes. -/
theorem create_session_state_succeeds_on_draft_session :
    (repoJ.sessionById "s2").map (fun s => s.status) = some .draft ∧
    create_session_state repoJ "s2" "a1" =
      (some { session_id := "s2", account_id := "a1", version := 0, items := [] },
       [Event.cacheSet (build_state_key "s2" "a1") 3600
         { session_id := "s2", account_id := "a1", version := 0, items := [] }]) := by
  constructor <;> decide

/-- C7 amended: creating a participant state for `(session_id, account_id)`
when none exists yields a version-0 empty state whenever the session
document exists — its status is not checked — and a missing session makes
the call return `None`, with no distinct SessionNotFound/SessionNotActive
outcomes. -/
theorem create_session_state_requires_existing_session_only
    (repo : Repo) (sid aid : String) :
    (repo.sessionById sid = none →
      create_session_state repo sid aid = (none, [])) ∧
    (∀ sess, repo.sessionById sid = some sess →
      get_active_session_state_by_user repo aid = none →
      create_session_state repo sid aid =
        (some { session_id := sid, account_id := aid, version := 0, items := [] },
         [Event.cacheSet (build_state_key sid aid) 3600
           { session_id := sid, account_id := aid, version := 0, items := [] }])) := by
  constructor
  · intro h
    unfold create_session_state
    rw [h]
  · intro sess hs hact
    unfold create_session_state
    rw [hs, hact]

theorem create_session_state_requires_existing_session_only_witness :
    repoJ.sessionById "s2" = some sessDraft ∧
    get_active_session_state_by_user repoJ "a1" = none ∧
    create_session_state repoJ "s2" "a1" =
      (some { session_id := "s2", account_id := "a1", version := 0, items := [] },
       [Event.cacheSet (build_state_key "s2" "a1") 3600
         { session_id := "s2", account_id := "a1", version := 0, items := [] }]) :=
  ⟨by decide, by decide,
   (create_session_state_requires_existing_session_only repoJ "s2" "a1").2
     sessDraft (by decide) (by decide)⟩

/-- C10: `create_session_state` is idempotent at its public interface: when
the caller already has an active-session state and it is for the requested
session, that state is returned unchanged with no write; when it is for a
different session, the call returns `None` and writes nothing. -/
theorem create_session_state_idempotent_on_existing_state
    (repo : Repo) (sid aid : String) (sess : Session) (st : SessionState)
    (hsess : repo.sessionById sid = some sess)
    (hst : get_active_session_state_by_user repo aid = some st) :
    (st.session_id = sid → create_session_state repo sid aid = (some st, [])) ∧
    (st.session_id ≠ sid → create_session_state repo sid aid = (none, [])) := by
  constructor
  · intro he
    simp only [create_session_state, hsess, hst]
    rw [if_neg (by simp [he])]
  · intro hne
    simp only [create_session_state, hsess, hst]
    rw [if_pos hne]

theorem create_session_state_idempotent_on_existing_state_witness :
    repoD.sessionById "s1" = some sessW ∧
    get_active_session_state_by_user repoD "a1" = some stateD ∧
    stateD.session_id = "s1" ∧
    create_session_state repoD "s1" "a1" = (some stateD, []) :=
  ⟨by decide, by decide, rfl,
   (create_session_state_idempotent_on_existing_state repoD "s1" "a1" sessW
     stateD (by decide) (by decide)).1 rfl⟩

/-! ## C9: unbound connections and broadcasts -/

theorem route_op_no_broadcast_of_handler {reg : Registry} {repo : Repo}
    {inst : String} {op : Op} {conn : String} {h : HandlerFn}
    (hh : handlersFor op.type = [h]) (hsid : op.session_id = "")
    (hok : ∀ r, h reg repo inst op conn = .ok r →
      r.op.session_id = op.session_id ∧
      ∀ s o ex, Event.broadcast s o ex ∉ r.events) :
    ∀ s o ex, Event.broadcast s o ex ∉ (route_op reg repo inst op conn).1 := by
  intro s o ex
  cases hres : h reg repo inst op conn with
  | ok r =>
    obtain ⟨hop, hnb⟩ := hok r hres
    rw [route_op_single_ok hh hres]
    rw [if_neg (fun hc => hc.1 (hop.trans hsid))]
    exact hnb s o ex
  | error e =>
    rw [route_op_single_error hh hres]
    rw [if_neg (fun hc => hc.1 hsid)]
    simp

theorem route_op_no_handlers_no_broadcast {reg : Registry} {repo : Repo}
    {inst : String} {op : Op} {conn : String}
    (hh : handlersFor op.type = []) (hsid : op.session_id = "") :
    ∀ s o ex, Event.broadcast s o ex ∉ (route_op reg repo inst op conn).1 := by
  intro s o ex
  unfold route_op
  rw [hh]
  simp only [List.foldl_nil]
  rw [if_neg (fun hc => hc.1 hsid)]
  simp

theorem route_op_empty_session_no_broadcast
    (reg : Registry) (repo : Repo) (inst : String) (op : Op) (conn : String)
    (info : ConnInfo)
    (hinfo : alookup reg.connections conn = some info)
    (hunbound : info.session_id = none)
    (hsid : op.session_id = "")
    (hnotjoin : op.type ≠ .session_join) :
    ∀ s o ex, Event.broadcast s o ex ∉ (route_op reg repo inst op conn).1 := by
  intro s o ex
  cases hty : op.type
  case session_join => exact absurd hty hnotjoin
  case session_leave =>
    refine route_op_no_broadcast_of_handler (by rw [hty]; rfl) hsid ?_ s o ex
    intro r hr
    simp only [handle_session_leave] at hr
    cases hr
    exact ⟨rfl, by intro s o ex; simp [leave_session_svc, hinfo, hunbound]⟩
  case exercise_add =>
    refine route_op_no_broadcast_of_handler (by rw [hty]; rfl) hsid ?_ s o ex
    intro r hr
    simp only [handle_exercise_add] at hr
    rw [if_pos hsid] at hr
    cases hr
    exact ⟨rfl, by intro s o ex h; simp [sendError] at h⟩
  case exercise_update =>
    refine route_op_no_broadcast_of_handler (by rw [hty]; rfl) hsid ?_ s o ex
    intro r hr
    simp only [handle_exercise_update] at hr
    rw [if_pos hsid] at hr
    cases hr
    exact ⟨rfl, by intro s o ex h; simp [sendError] at h⟩
  case exercise_delete =>
    refine route_op_no_broadcast_of_handler (by rw [hty]; rfl) hsid ?_ s o ex
    intro r hr
    simp only [handle_exercise_delete] at hr
    rw [if_pos hsid] at hr
    cases hr
    exact ⟨rfl, by intro s o ex h; simp [sendError] at h⟩
  case set_add =>
    refine route_op_no_broadcast_of_handler (by rw [hty]; rfl) hsid ?_ s o ex
    intro r hr
    simp only [handle_set_add] at hr
    rw [if_pos hsid] at hr
    cases hr
    exact ⟨rfl, by intro s o ex h; simp [sendError] at h⟩
  case set_complete =>
    refine route_op_no_broadcast_of_handler (by rw [hty]; rfl) hsid ?_ s o ex
    intro r hr
    simp only [handle_set_complete] at hr
    rw [if_pos hsid] at hr
    cases hr
    exact ⟨rfl, by intro s o ex h; simp [sendError] at h⟩
  case cursor_move =>
    refine route_op_no_broadcast_of_handler (by rw [hty]; rfl) hsid ?_ s o ex
    intro r hr
    simp only [handle_cursor_move] at hr
    rw [if_pos hsid] at hr
    cases hr
    exact ⟨rfl, by intro s o ex h; simp at h⟩
  case sync_request =>
    refine route_op_no_broadcast_of_handler (by rw [hty]; rfl) hsid ?_ s o ex
    intro r hr
    simp only [handle_sync_request] at hr
    rw [if_pos hsid] at hr
    cases hr
    exact ⟨rfl, by intro s o ex h; simp [sendError] at h⟩
  all_goals exact route_op_no_handlers_no_broadcast (by rw [hty]; rfl) hsid s o ex

/-- An inbound message from an unbound connection that smuggles a top-level
`session_id`. -/
def rawC9 : RawMessage :=
  { id := some "m1", type := some "exercise_add", session_id := some "s1",
    payload := {}, version := none, correlation_id := none }

/-- A repository snapshot with no sessions and no states. -/
def repoN : Repo :=
  { sessionById := fun _ => none, activeSessionByUser := fun _ => none,
    cacheGet := fun _ => none, statesBySession := fun _ => [] }

/-- The operation the dispatcher constructs from `rawC9` on connection `c1`
of `regU`. -/
def opC9 : Op :=
  { id := "m1", type := .exercise_add, session_id := "s1", account_id := "a1",
    payload := .inbound {}, version := 0, correlation_id := none,
    instance_id := some "i1" }

/-- C9 counterexample: connection `c1` is bound to no session, yet
dispatching its `exercise_add` message carrying a top-level `session_id`
key produces a `broadcast_to_session` call for that session — the
dispatcher trusts the client-supplied session id. -/
theorem unbound_connection_payload_session_id_broadcasts :
    (alookup regU.connections "c1").map (fun i => i.session_id) = some none ∧
    Event.broadcast "s1" opC9 (some "c1") ∈
      handle_client_op regU repoN "i1" "c1" rawC9 := by
  constructor <;> decide

/-- C9 amended: an unbound connection produces no broadcast only as long as
its message does not itself carry a non-empty top-level `session_id` and is
not a `session_join`: the dispatcher fills the operation's session id from
the message's `session_id` key, trusting the client.  Under those two
conditions no broadcast call is emitted. -/
theorem unbound_connection_without_payload_session_id_never_broadcasts
    (reg : Registry) (repo : Repo) (inst conn : String) (raw : RawMessage)
    (info : ConnInfo)
    (hinfo : alookup reg.connections conn = some info)
    (hunbound : info.session_id = none)
    (hraw : raw.session_id = none ∨ raw.session_id = some "")
    (hnotjoin : ∀ t, raw.type = some t → parseOpType t ≠ some .session_join) :
    ∀ s o ex, Event.broadcast s o ex ∉ handle_client_op reg repo inst conn raw := by
  intro s o ex
  cases hty : raw.type with
  | none => simp [handle_client_op, hinfo, hty]
  | some ts =>
    cases hpt : parseOpType ts with
    | none => simp [handle_client_op, hinfo, hty, hpt]
    | some t =>
      simp only [handle_client_op, hinfo, hty, hpt]
      have hsid : raw.session_id.getD (info.session_id.getD "") = "" := by
        rcases hraw with hr | hr <;> rw [hr] <;> simp [hunbound]
      have hnj : t ≠ .session_join := fun he => hnotjoin ts hty (he ▸ hpt)
      exact route_op_empty_session_no_broadcast reg repo inst
        { id := raw.id.getD freshId, type := t,
          session_id := raw.session_id.getD (info.session_id.getD ""),
          account_id := info.account_id, payload := .inbound raw.payload,
          version := raw.version.getD 0, correlation_id := raw.correlation_id,
          instance_id := some inst } conn info hinfo hunbound hsid hnj s o ex

theorem unbound_connection_without_payload_session_id_never_broadcasts_witness :
    alookup regU.connections "c1" =
      some { account_id := "a1", session_id := none, instance_id := "i1" } ∧
    Event.broadcast "s1" opC9 (some "c1") ∉
      handle_client_op regU repoN "i1" "c1"
        { rawC9 with session_id := none } :=
  ⟨by decide,
   unbound_connection_without_payload_session_id_never_broadcasts regU repoN
     "i1" "c1" { rawC9 with session_id := none }
     { account_id := "a1", session_id := none, instance_id := "i1" }
     (by decide) rfl (Or.inl rfl)
     (fun t ht => by
       cases ht
       intro hpe
       simp [parseOpType] at hpe)
     "s1" opC9 (some "c1")⟩

end TC2
